import Mathlib

/-!
Shallow embedding of the channel ingestion pipeline of the TradingV1
repository: the fetch engine, the text sanitizer, the batch commit helpers,
the lock file handler and the scheduler loop of
trading_prod/scripts/telegram_fetch.py together with
trading_prod/helper/message_storage.py and trading_prod/helper/lockfile.py.
Machine integers are modelled as Nat (none of the modelled code paths can
overflow Python integers), timestamps as Nat, and the relational store as
explicit lists of rows.
-/

set_option maxRecDepth 100000

namespace TradingV1

/-- A Telegram message as seen by the fetcher: its identifier, its date
(timestamps are abstracted to naturals) and whether reading its text
succeeds.  In the source, a corrupt message raises TypeNotFoundError the
moment msg.text is touched (telegram_fetch.py line 214). -/
structure Msg where
  id : Nat
  date : Nat
  readable : Bool
deriving DecidableEq, Repr

/-- One reply of the channel client to a get_messages call
(telegram_fetch.py lines 203-253): an ordered list of messages, a
FloodWaitError carrying a wait duration, a TypeNotFoundError raised by the
call itself, or any other exception. -/
inductive ClientReply where
  | ok (msgs : List Msg)
  | floodWait (seconds : Nat)
  | unreadableCall
  | otherError
deriving DecidableEq, Repr

/-- A channel client is a function from (offset identifier, request size)
to a reply; get_messages with reverse=True returns messages with id
strictly greater than the offset, oldest first, up to the limit. -/
def getMessages (source : List Msg) (offsetId limit : Nat) : List Msg :=
  (source.filter (fun m => offsetId < m.id)).take limit

/-- telegram_fetch.py line 192: max_retries = 5. -/
def maxRetries : Nat := 5

/-- telegram_fetch.py line 193: max_skips = 50. -/
def maxSkips : Nat := 50

/-- The mutable locals of fetch_message_batch
(telegram_fetch.py lines 194-198). -/
structure FetchState where
  currentOffset : Nat
  valid : List Msg
  fetched : Nat
  retries : Nat
  skips : Nat
deriving DecidableEq, Repr

/-- The per-message body of the for loop in fetch_message_batch
(telegram_fetch.py lines 212-225): a readable message is appended and the
offset moves to its id, resetting retries and skips; an unreadable message
advances the offset by one position, counts a skip and resets retries. -/
def processOne (s : FetchState) (m : Msg) : FetchState :=
  if m.readable then
    { s with valid := s.valid ++ [m], fetched := s.fetched + 1,
             currentOffset := m.id, retries := 0, skips := 0 }
  else
    { s with currentOffset := s.currentOffset + 1, skips := s.skips + 1,
             retries := 0 }

/-- Request size computation (telegram_fetch.py line 202): normally
min(remaining, 100), widened to min(remaining, 200) once skips reaches
half of max_skips. -/
def fetchSizeFor (batchSize fetched skips : Nat) : Nat :=
  if skips < maxSkips / 2 then min (batchSize - fetched) 100
  else min (batchSize - fetched) 200

/-- Skip-ahead jump at the bottom of the while body
(telegram_fetch.py lines 231-234): when skips has reached max_skips, the
working offset jumps forward by the fixed stride 100 and skips resets. -/
def jumpIfMaxSkips (s : FetchState) : FetchState :=
  if maxSkips ≤ s.skips then
    { s with currentOffset := s.currentOffset + 100, skips := 0 }
  else s

/-- Observable outcome of one fetch_message_batch call: the final locals,
the number of client calls made, and the list of slept flood-wait
durations. -/
structure FetchOutcome where
  state : FetchState
  calls : Nat
  sleeps : List Nat
deriving DecidableEq, Repr

/-- The while loop of fetch_message_batch (telegram_fetch.py lines
199-253), with explicit fuel; running out of fuel returns none, so a some
result witnesses termination within that many iterations.  Client calls
and flood-wait sleeps are accumulated. -/
def fetchLoop (client : Nat → Nat → ClientReply) (batchSize : Nat) :
    Nat → FetchState → Nat → List Nat → Option FetchOutcome
  | 0, _, _, _ => none
  | fuel + 1, s, calls, sleeps =>
    if s.fetched < batchSize then
      let fs := fetchSizeFor batchSize s.fetched s.skips
      match client s.currentOffset fs with
      | ClientReply.floodWait secs =>
        if maxRetries ≤ s.retries + 1 then
          some ⟨{ s with retries := s.retries + 1 }, calls + 1, sleeps ++ [secs]⟩
        else
          fetchLoop client batchSize fuel { s with retries := s.retries + 1 }
            (calls + 1) (sleeps ++ [secs])
      | ClientReply.unreadableCall =>
        fetchLoop client batchSize fuel
          { s with currentOffset := s.currentOffset + 1, skips := s.skips + 1,
                   retries := 0 }
          (calls + 1) sleeps
      | ClientReply.otherError =>
        if maxRetries ≤ s.retries + 1 then
          some ⟨{ s with retries := s.retries + 1 }, calls + 1, sleeps⟩
        else
          fetchLoop client batchSize fuel { s with retries := s.retries + 1 }
            (calls + 1) sleeps
      | ClientReply.ok msgs =>
        if msgs.isEmpty then some ⟨s, calls + 1, sleeps⟩
        else
          let s1 := msgs.foldl processOne s
          if msgs.length < fs then some ⟨s1, calls + 1, sleeps⟩
          else fetchLoop client batchSize fuel (jumpIfMaxSkips s1) (calls + 1) sleeps
    else
      some ⟨s, calls, sleeps⟩

/-- fetch_message_batch (telegram_fetch.py lines 178-257): start from the
given offset with empty locals and run the loop. -/
def fetch_message_batch (client : Nat → Nat → ClientReply)
    (offsetId batchSize fuel : Nat) : Option FetchOutcome :=
  fetchLoop client batchSize fuel ⟨offsetId, [], 0, 0, 0⟩ 0 []

/-- Synthetic source for the skip-ahead property: max_skips + 10 = 60
consecutive unreadable messages with ids 1..60, then one readable message
with id 61, and nothing after it. -/
def corruptRunSource : List Msg :=
  (List.range 60).map (fun i => ⟨i + 1, i + 1, false⟩) ++ [⟨61, 61, true⟩]

/-- Client over the synthetic corrupt-run source; every call succeeds. -/
def corruptRunClient (offsetId limit : Nat) : ClientReply :=
  ClientReply.ok (getMessages corruptRunSource offsetId limit)

/-- Client that always raises FloodWaitError with a one second wait. -/
def alwaysFloodClient (_offsetId _limit : Nat) : ClientReply :=
  ClientReply.floodWait 1

/-- Source of 100 readable messages with ids 1..100. -/
def hundredSource : List Msg :=
  (List.range 100).map (fun i => ⟨i + 1, i + 1, true⟩)

/-- Client that serves the first 100 messages normally and then always
raises FloodWaitError with a one second wait. -/
def floodAfterHundredClient (offsetId limit : Nat) : ClientReply :=
  if offsetId < 100 then ClientReply.ok (getMessages hundredSource offsetId limit)
  else ClientReply.floodWait 1

/-- Python strings are modelled as lists of Unicode code points. -/
abbrev PyStr := List Nat

/-- The character class kept by the regular expression of sanitize_text
(telegram_fetch.py line 274): printable ASCII, newline, carriage return,
and the range A0..FFFF. -/
def regexKeep (c : Nat) : Bool :=
  (0x20 ≤ c && c ≤ 0x7E) || c == 0x0A || c == 0x0D || (0xA0 ≤ c && c ≤ 0xFFFF)

/-- The characters kept by encode with the ascii codec and errors ignored
(telegram_fetch.py line 275): code points below 128. -/
def asciiKeep (c : Nat) : Bool := c < 0x80

/-- sanitize_text (telegram_fetch.py lines 259-278).  The NFKC
normalisation step is an arbitrary parameter, since its implementation
lives in the unicodedata library; every claim about the output is proved
for all normalisers.  A None input maps to None, the normalised string is
filtered by the regular expression and then by the ascii codec, and an
empty result collapses to None. -/
def sanitize_text (normalizeNFKC : PyStr → PyStr) : Option PyStr → Option PyStr
  | none => none
  | some t =>
    let n := normalizeNFKC t
    let r := n.filter regexKeep
    let a := r.filter asciiKeep
    if a.isEmpty then none else some a

/-- A row of the channels table (the channel roster).  FetchStatus is the
enum column: 1 stands for in_progress, 2 for complete.  The earliest and
latest raw-message columns and the latest_batch_raw_run column are
nullable. -/
structure ChannelRow where
  id : Nat
  operating : Bool
  disappeared : Bool
  fetchStatus : Nat
  fetchAttempts : Nat
  earliestId : Option Nat
  earliestDate : Option Nat
  latestId : Option Nat
  latestDate : Option Nat
  latestBatchRun : Option Nat
deriving DecidableEq, Repr

/-- A row of the channel_fetch_batches table.  File paths and timestamps
are abstracted to naturals. -/
structure BatchRow where
  channelId : Nat
  batchTimestamp : Nat
  messageFilePath : Nat
  firstId : Nat
  firstDate : Nat
  lastId : Nat
  lastDate : Nat
  messageCount : Nat
deriving DecidableEq, Repr

/-- The relational store: the channels table and the
channel_fetch_batches table. -/
structure Db where
  channels : List ChannelRow
  batches : List BatchRow
deriving DecidableEq, Repr

/-- UPDATE channels SET ... WHERE ID = cid: rewrite every row whose id
matches. -/
def updateChannelRow (db : Db) (cid : Nat) (f : ChannelRow → ChannelRow) : Db :=
  { db with channels := db.channels.map (fun r => if r.id == cid then f r else r) }

/-- INSERT INTO channel_fetch_batches. -/
def insertBatchRow (db : Db) (row : BatchRow) : Db :=
  { db with batches := db.batches ++ [row] }

/-- SELECT ... FROM channels WHERE ID = cid (first matching row). -/
def getChannelRow (db : Db) (cid : Nat) : Option ChannelRow :=
  db.channels.find? (fun r => r.id == cid)

/-- update_channel_status line 425: max_attempts = 5. -/
def maxAttempts : Nat := 5

/-- update_channel_status (telegram_fetch.py lines 386-452).  The dbOk
flag models whether the execute-and-commit block succeeds; on failure the
function logs, leaves the store untouched and returns False.  On a
non-empty message list the row gets earliest fields from the LAST message
and latest fields from the FIRST message, FetchStatus 1 and
fetch_attempts 0; on an empty list the local attempt counter is the
argument plus one, and the row is marked complete (2) once it reaches
max_attempts, in_progress (1) otherwise. -/
def update_channel_status (db : Db) (cid : Nat) (msgs : List Msg)
    (fetchAttempts : Nat) (dbOk : Bool) : Db × Bool :=
  if !dbOk then (db, false) else
  match msgs with
  | [] =>
    let a := fetchAttempts + 1
    if maxAttempts ≤ a then
      (updateChannelRow db cid
        (fun r => { r with fetchStatus := 2, fetchAttempts := a }), true)
    else
      (updateChannelRow db cid
        (fun r => { r with fetchStatus := 1, fetchAttempts := a }), true)
  | m :: rest =>
    let lastMsg := (m :: rest).getLast (List.cons_ne_nil m rest)
    (updateChannelRow db cid (fun r =>
      { r with earliestId := some lastMsg.id, earliestDate := some lastMsg.date,
               latestId := some m.id, latestDate := some m.date,
               fetchStatus := 1, fetchAttempts := 0 }), true)

/-- record_batch_metadata (telegram_fetch.py lines 336-384).  Without
messages or without a file name it records nothing and returns False;
otherwise the dbOk flag models whether the single INSERT plus commit
succeeds, and a failure leaves the store untouched.  The batch timestamp
is abstracted to the now argument. -/
def record_batch_metadata (db : Db) (cid : Nat) (msgFilename : Option Nat)
    (msgs : List Msg) (now : Nat) (dbOk : Bool) : Db × Bool :=
  match msgFilename, msgs with
  | some path, m :: rest =>
    if dbOk then
      let lastMsg := (m :: rest).getLast (List.cons_ne_nil m rest)
      (insertBatchRow db
        ⟨cid, now, path, m.id, m.date, lastMsg.id, lastMsg.date,
          (m :: rest).length⟩, true)
    else (db, false)
  | _, _ => (db, false)

/-- The body of the single transaction of MessageStorageHandler
store_messages (message_storage.py lines 153-227): insert the batch
metadata row, read the current earliest id of the channel, and either set
both earliest and latest fields plus FetchStatus 1 (first run: no row or
null earliest) or update only the latest fields and the batch run time.
Here earliest comes from the FIRST message and latest from the LAST
message. -/
def store_messages_tx (db : Db) (cid : Nat) (m : Msg) (rest : List Msg)
    (path now : Nat) : Db :=
  let msgs := m :: rest
  let lastMsg := msgs.getLast (List.cons_ne_nil m rest)
  let db1 := insertBatchRow db
    ⟨cid, now, path, m.id, m.date, lastMsg.id, lastMsg.date, msgs.length⟩
  let isFirstRun : Bool :=
    match getChannelRow db1 cid with
    | none => true
    | some r => r.earliestId == none
  if isFirstRun then
    updateChannelRow db1 cid (fun r =>
      { r with earliestId := some m.id, earliestDate := some m.date,
               latestId := some lastMsg.id, latestDate := some lastMsg.date,
               latestBatchRun := some now, fetchStatus := 1 })
  else
    updateChannelRow db1 cid (fun r =>
      { r with latestId := some lastMsg.id, latestDate := some lastMsg.date,
               latestBatchRun := some now })

/-- Failure switches for one store_messages call: whether the message
JSON write succeeds, whether the stats JSON write succeeds, and whether
the database transaction commits. -/
structure StoreEnv where
  msgFileOk : Bool
  statsFileOk : Bool
  txOk : Bool
deriving DecidableEq, Repr

/-- MessageStorageHandler.store_messages (message_storage.py lines
66-230), restricted to its persistence effects: a failed message file
write raises before anything is persisted; on an empty list no stats file
and no database work happen; a failed stats write raises with no database
effect; the database part runs inside conn.begin(), so a transaction
failure rolls every statement back and re-raises.  The returned flag
records whether an exception propagated.  Media downloads only affect
file contents (failures are logged and the message keeps media None), so
they do not appear in this state model. -/
def store_messages (env : StoreEnv) (db : Db) (cid : Nat) (msgs : List Msg)
    (path now : Nat) : Db × Bool :=
  if !env.msgFileOk then (db, true)
  else match msgs with
  | [] => (db, false)
  | m :: rest =>
    if !env.statsFileOk then (db, true)
    else if env.txOk then (store_messages_tx db cid m rest path now, false)
    else (db, true)

/-- One value of the channel_states dictionary of main
(telegram_fetch.py line 485): offset_id, fetch_attempts, batch_count,
total_messages_fetched. -/
structure ChanState where
  offsetId : Nat
  fetchAttempts : Nat
  batchCount : Nat
  totalFetched : Nat
deriving DecidableEq, Repr

/-- Dictionary lookup in channel_states, modelled on an association
list. -/
def lookupState (l : List (Nat × ChanState)) (cid : Nat) : Option ChanState :=
  (l.find? (fun p => p.1 == cid)).map Prod.snd

/-- Dictionary assignment in channel_states. -/
def setState (l : List (Nat × ChanState)) (cid : Nat) (s : ChanState) :
    List (Nat × ChanState) :=
  if (l.find? (fun p => p.1 == cid)).isSome then
    l.map (fun p => if p.1 == cid then (cid, s) else p)
  else l ++ [(cid, s)]

/-- The correlated subquery of fetch_active_channels
(telegram_fetch.py lines 163-165): MAX(last_message_id) over the batches
of the channel, null when the channel has no batch rows. -/
def lastProcessedId (db : Db) (cid : Nat) : Option Nat :=
  ((db.batches.filter (fun b => b.channelId == cid)).map
    (fun b => b.lastId)).foldl
      (fun acc i =>
        match acc with
        | none => some i
        | some a => some (max a i)) none

/-- fetch_active_channels (telegram_fetch.py lines 150-176): the channels
with Operating = 1 and Disappeared = 0.  A query error is logged and
yields the empty list; the rosterOk oracle of the scheduler environment
covers that case. -/
def fetch_active_channels (db : Db) : List ChannelRow :=
  db.channels.filter (fun r => r.operating && !r.disappeared)

/-- External outcomes the service loop meets, indexed by cycle counter
and channel id (and, for the lock file, by a running count of
os.path.exists checks): what fetch_message_batch returns, whether
store_messages_to_file succeeds, whether the metadata INSERT commits,
whether the status UPDATE commits, whether the lock file still exists,
and whether the roster query succeeds.  fetch_message_batch itself never
raises (every exception path inside it is caught), so an oracle returning
its result list is a faithful abstraction; the periodic config reload
only swaps the numeric fetch parameters, which that oracle subsumes. -/
structure SchedEnv where
  fetchResult : Nat → Nat → List Msg
  fileWriteOk : Nat → Nat → Bool
  metadataOk : Nat → Nat → Bool
  statusOk : Nat → Nat → Bool
  lockExists : Nat → Bool
  rosterOk : Nat → Bool

/-- Result of the per-channel body of the for loop of main. -/
structure ChannelResult where
  db : Db
  states : List (Nat × ChanState)
  gotMessages : Bool
  active : Bool
deriving DecidableEq, Repr

/-- The body of the for loop of main for one roster entry
(telegram_fetch.py lines 512-541), up to but not including the pause and
the lock check.  The entry carries the channel id and the
last_processed_id column from the roster query.  A missing channel_states
entry is seeded with that id (or 0).  A channel at the max_batches cap is
skipped (continue), so it is not appended to active_channels.  Otherwise
the fetch oracle is consulted: on messages, the file write, the metadata
insert (only when the file write returned a name) and the status update
run in order with their outcomes ignored, and the in-memory offset_id
moves to the id of the last message with fetch_attempts reset; on an
empty result only the status update runs and the in-memory
fetch_attempts grows by one. -/
def processChannel (env : SchedEnv) (maxBatches cycle : Nat) (db : Db)
    (states : List (Nat × ChanState)) (entry : Nat × Option Nat) :
    ChannelResult :=
  let cid := entry.1
  let states1 :=
    if (lookupState states cid).isSome then states
    else setState states cid ⟨(entry.2).getD 0, 0, 0, 0⟩
  let st := (lookupState states1 cid).getD ⟨0, 0, 0, 0⟩
  if 0 < maxBatches && maxBatches ≤ st.batchCount then
    ⟨db, states1, false, false⟩
  else
    match env.fetchResult cycle cid with
    | [] =>
      let db1 := (update_channel_status db cid [] st.fetchAttempts
        (env.statusOk cycle cid)).1
      ⟨db1, setState states1 cid { st with fetchAttempts := st.fetchAttempts + 1 },
        false, true⟩
    | m :: rest =>
      let msgs := m :: rest
      let bc := st.batchCount + 1
      let tot := st.totalFetched + msgs.length
      let fname : Option Nat :=
        if env.fileWriteOk cycle cid then some cycle else none
      let db1 :=
        if fname.isSome then
          (record_batch_metadata db cid fname msgs cycle
            (env.metadataOk cycle cid)).1
        else db
      let db2 := (update_channel_status db1 cid msgs st.fetchAttempts
        (env.statusOk cycle cid)).1
      let lastMsg := msgs.getLast (List.cons_ne_nil m rest)
      ⟨db2, setState states1 cid ⟨lastMsg.id, 0, bc, tot⟩, true, true⟩

/-- Result of one pass over the roster inside a cycle. -/
structure CycleResult where
  db : Db
  states : List (Nat × ChanState)
  lockChecks : Nat
  anyMessages : Bool
  anyActive : Bool
  stoppedByLock : Bool
deriving DecidableEq, Repr

/-- The for loop of main over the roster (telegram_fetch.py lines
512-547).  After each processed (not skipped) channel the loop pauses and
re-checks the lock file; if the file is gone the function returns at once
(remaining channels are not processed).  Skipped channels consume no lock
check because continue jumps over it. -/
def runChannels (env : SchedEnv) (maxBatches cycle : Nat) :
    Db → List (Nat × ChanState) → Nat → List (Nat × Option Nat) →
    Bool → Bool → CycleResult
  | db, states, lockChecks, [], anyM, anyA =>
    ⟨db, states, lockChecks, anyM, anyA, false⟩
  | db, states, lockChecks, entry :: restEntries, anyM, anyA =>
    let r := processChannel env maxBatches cycle db states entry
    let anyM1 := anyM || r.gotMessages
    let anyA1 := anyA || r.active
    if r.active then
      if !env.lockExists lockChecks then
        ⟨r.db, r.states, lockChecks + 1, anyM1, anyA1, true⟩
      else
        runChannels env maxBatches cycle r.db r.states (lockChecks + 1)
          restEntries anyM1 anyA1
    else
      runChannels env maxBatches cycle r.db r.states lockChecks
        restEntries anyM1 anyA1

/-- Why the while loop of main stopped: lock file gone at the top of a
cycle (break at line 491), lock file gone after a channel (return at
line 547), or an empty active_channels list (break at line 554). -/
inductive StopReason where
  | lockRemovedTop
  | lockRemovedMidCycle
  | allCapped
deriving DecidableEq, Repr

/-- Outcome of the while loop of main: a stop with its reason and the
final program state, or still running when the cycle budget (fuel) ran
out. -/
inductive SchedResult where
  | stopped (reason : StopReason) (db : Db) (states : List (Nat × ChanState))
      (lockChecks : Nat)
  | running (db : Db) (states : List (Nat × ChanState)) (cycle lockChecks : Nat)
deriving DecidableEq, Repr

/-- The while loop of main (telegram_fetch.py lines 487-554), one fuel
unit per cycle.  Top of cycle: lock check (break when gone).  An empty or
failed roster query sleeps and continues.  Otherwise the roster is walked
by runChannels; a mid-cycle lock removal returns, and an all-skipped
cycle (active_channels empty) breaks; otherwise the next cycle starts. -/
def schedulerRun (env : SchedEnv) (maxBatches : Nat) :
    Nat → Db → List (Nat × ChanState) → Nat → Nat → SchedResult
  | 0, db, states, cycle, lockChecks =>
    SchedResult.running db states cycle lockChecks
  | fuel + 1, db, states, cycle, lockChecks =>
    if !env.lockExists lockChecks then
      SchedResult.stopped StopReason.lockRemovedTop db states (lockChecks + 1)
    else
      let lc := lockChecks + 1
      let roster := if env.rosterOk cycle then fetch_active_channels db else []
      if roster.isEmpty then
        schedulerRun env maxBatches fuel db states (cycle + 1) lc
      else
        let entries := roster.map (fun r => (r.id, lastProcessedId db r.id))
        let c := runChannels env maxBatches cycle db states lc entries false false
        if c.stoppedByLock then
          SchedResult.stopped StopReason.lockRemovedMidCycle c.db c.states c.lockChecks
        else if !c.anyActive then
          SchedResult.stopped StopReason.allCapped c.db c.states c.lockChecks
        else
          schedulerRun env maxBatches fuel c.db c.states (cycle + 1) c.lockChecks

/-- State of the file object held by LockFileHandler: acquire opens it;
on lock contention acquire closes it again before raising LockError
(lockfile.py lines 94-98). -/
inductive FdState where
  | openFd
  | closedFd
deriving DecidableEq, Repr

/-- LockFileHandler.lock_fd (lockfile.py line 78): none before acquire
and after release. -/
structure LockHandler where
  fd : Option FdState
deriving DecidableEq, Repr

/-- How LockFileHandler.acquire ends (lockfile.py lines 80-103): the lock
is taken; or another instance holds it (portalocker refuses, the file
object is closed, LockError is raised); or the open call itself raises an
OSError, in which case the assignment to lock_fd never ran, so lock_fd is
still None and nothing is closed before the error is re-raised; or an
OSError is raised while locking an already opened descriptor, in which
case the file object is closed and the error is re-raised. -/
inductive AcquireOutcome where
  | success
  | contention
  | openFailure
  | lockOsFailure
deriving DecidableEq, Repr

/-- LockFileHandler.release (lockfile.py lines 105-124), returning the
handler, whether the lock file still exists on disk, and whether an
exception propagated.  With no file object it does nothing.  With an open
file object it unlocks, closes, and deletes the lock file when present.
With a closed file object (the contention path of acquire left one
behind) the unlock call fails, because the underlying descriptor of a
closed Python file is unusable: an OSError is logged and re-raised by the
except clause, and any other error is not caught at all, so release
raises either way; the finally clause still clears lock_fd and the file
is not deleted. -/
def lockRelease (h : LockHandler) (fileExists : Bool) :
    LockHandler × Bool × Bool :=
  match h.fd with
  | none => (h, fileExists, false)
  | some FdState.openFd => (⟨none⟩, false, false)
  | some FdState.closedFd => (⟨none⟩, fileExists, true)

/-- What the whole process run produced: an exit code, or still inside
the service loop when the cycle budget ran out. -/
inductive MainOutcome where
  | exitCode (code : Nat)
  | stillRunning
deriving DecidableEq, Repr

/-- Observable result of one run of main: the outcome, how many times
LockFileHandler.release was invoked, and whether this process left a lock
file of its own on disk. -/
structure MainResult where
  outcome : MainOutcome
  releaseCalls : Nat
  lockFileAfter : Bool
deriving DecidableEq, Repr

/-- Everything external that one run of main consumes. -/
structure MainEnv where
  initOk : Bool
  acquireOutcome : AcquireOutcome
  sched : SchedEnv
  maxBatches : Nat
  initialDb : Db
  fuel : Nat

/-- main (telegram_fetch.py lines 454-567).  A failed initialisation
prints and calls sys.exit(1) before the lock handler exists.  Acquire
runs inside the try block whose finally clause invokes release exactly
once.  On contention, and on an OS failure while locking an already
opened descriptor, the exception is caught by the generic handler at
line 556, but release then meets the closed descriptor acquire left
behind and itself raises, so the sys.exit(0) at line 567 is never
reached and the interpreter exits with a nonzero code.  When the open
call itself fails with an OS error, lock_fd is still None: the exception
is caught at line 556, release is a no-op, and the finally clause
reaches sys.exit(0), so the process exits 0 without ever holding the
lock (and without having created a lock file).  On a successful acquire
the service loop runs; when it stops (any StopReason), release succeeds
on the open descriptor, deletes the lock file when still present, and
sys.exit(0) ends the process. -/
def mainRun (env : MainEnv) : MainResult :=
  if !env.initOk then ⟨MainOutcome.exitCode 1, 0, false⟩
  else
    match env.acquireOutcome with
    | AcquireOutcome.contention =>
      let r := lockRelease ⟨some FdState.closedFd⟩ true
      if r.2.2 then ⟨MainOutcome.exitCode 1, 1, r.2.1⟩
      else ⟨MainOutcome.exitCode 0, 1, r.2.1⟩
    | AcquireOutcome.openFailure =>
      let r := lockRelease ⟨none⟩ false
      if r.2.2 then ⟨MainOutcome.exitCode 1, 1, r.2.1⟩
      else ⟨MainOutcome.exitCode 0, 1, r.2.1⟩
    | AcquireOutcome.lockOsFailure =>
      let r := lockRelease ⟨some FdState.closedFd⟩ true
      if r.2.2 then ⟨MainOutcome.exitCode 1, 1, r.2.1⟩
      else ⟨MainOutcome.exitCode 0, 1, r.2.1⟩
    | AcquireOutcome.success =>
      match schedulerRun env.sched env.maxBatches env.fuel env.initialDb [] 0 0 with
      | SchedResult.running _ _ _ _ => ⟨MainOutcome.stillRunning, 0, true⟩
      | SchedResult.stopped _ _ _ lc =>
        let r := lockRelease ⟨some FdState.openFd⟩ (env.sched.lockExists lc)
        if r.2.2 then ⟨MainOutcome.exitCode 1, 1, r.2.1⟩
        else ⟨MainOutcome.exitCode 0, 1, r.2.1⟩

/-- Fixture: one freshly discovered operating channel, no batches yet. -/
def chanRow1 : ChannelRow := ⟨1, true, false, 1, 0, none, none, none, none, none⟩

/-- Fixture: store holding only chanRow1. -/
def dbOne : Db := ⟨[chanRow1], []⟩

/-- Scenario: one message arrives but the batch file write fails; metadata
and status writes would succeed; the lock stays. -/
def envC1cex : SchedEnv :=
  ⟨fun _ _ => [⟨10, 100, true⟩], fun _ _ => false, fun _ _ => true,
   fun _ _ => true, fun _ => true, fun _ => true⟩

/-- Scenario: one message arrives, the file write and the metadata insert
succeed, but the channel status update fails. -/
def envC2cex : SchedEnv :=
  ⟨fun _ _ => [⟨10, 100, true⟩], fun _ _ => true, fun _ _ => true,
   fun _ _ => false, fun _ => true, fun _ => true⟩

/-- Fixture: a channel whose earliest committed id is already recorded
(a batch was committed before), together with that prior batch row. -/
def chanRowSeen : ChannelRow :=
  ⟨1, true, false, 1, 0, some 5, some 50, some 9, some 90, some 7⟩

/-- Fixture: store for the subsequent-batch scenario. -/
def dbSeen : Db := ⟨[chanRowSeen], [⟨1, 7, 7, 5, 50, 9, 90, 5⟩]⟩

/-- Scenario: a subsequent two-message batch with every persistence step
succeeding. -/
def envC3cex : SchedEnv :=
  ⟨fun _ _ => [⟨10, 100, true⟩, ⟨11, 101, true⟩], fun _ _ => true,
   fun _ _ => true, fun _ _ => true, fun _ => true, fun _ => true⟩

/-- Scenario: every fetch returns one message and every persistence step
succeeds; the lock file is never removed. -/
def envSchedCap : SchedEnv :=
  ⟨fun _ _ => [⟨10, 100, true⟩], fun _ _ => true, fun _ _ => true,
   fun _ _ => true, fun _ => true, fun _ => true⟩

/-- Scenario: a full main run over envSchedCap with max_batches 1 and two
cycles of fuel: cycle 0 commits one batch, cycle 1 skips the capped
channel and stops. -/
def envMainCap : MainEnv :=
  ⟨true, AcquireOutcome.success, envSchedCap, 1, dbOne, 2⟩

/-- Fixture: a channel already marked complete (FetchStatus 2) in the
roster. -/
def chanRowComplete : ChannelRow :=
  ⟨1, true, false, 2, 5, some 5, some 50, some 9, some 90, some 7⟩

/-- Fixture: store holding only the complete channel. -/
def dbComplete : Db := ⟨[chanRowComplete], []⟩

/-- Scenario: every fetch is empty, every status write succeeds, the lock
stays, max_batches is 0 (unlimited). -/
def envEmptyFetch : SchedEnv :=
  ⟨fun _ _ => [], fun _ _ => true, fun _ _ => true, fun _ _ => true,
   fun _ => true, fun _ => true⟩

/-- Fixture: three operating channels for the mid-cycle lock removal
scenario. -/
def dbThree : Db :=
  ⟨[⟨1, true, false, 1, 0, none, none, none, none, none⟩,
    ⟨2, true, false, 1, 0, none, none, none, none, none⟩,
    ⟨3, true, false, 1, 0, none, none, none, none, none⟩], []⟩

/-- Scenario: empty fetches; the lock file exists for the first two
checks (top of cycle, after channel 1) and is gone at the third (after
channel 2), so channel 3 must not be processed. -/
def envLockGone : SchedEnv :=
  ⟨fun _ _ => [], fun _ _ => true, fun _ _ => true, fun _ _ => true,
   fun n => decide (n < 2), fun _ => true⟩

/-- Scenario: a full main run over envLockGone. -/
def envMainLockGone : MainEnv :=
  ⟨true, AcquireOutcome.success, envLockGone, 0, dbThree, 1⟩

/-- Scenario: empty fetches for cycles 0..4, then one message at cycle 5;
all persistence succeeds. -/
def envFiveThenMsg : SchedEnv :=
  ⟨fun cycle _ => if cycle == 5 then [⟨10, 100, true⟩] else [],
   fun _ _ => true, fun _ _ => true, fun _ _ => true,
   fun _ => true, fun _ => true⟩

/-- Replacing the matching entry of an association list is visible to a
subsequent lookup. -/
theorem findReplaceAux (l : List (Nat × ChanState)) (cid : Nat) (s : ChanState)
    (h : (l.find? (fun p => p.1 == cid)).isSome = true) :
    (l.map (fun p => if p.1 == cid then (cid, s) else p)).find?
        (fun p => p.1 == cid) = some (cid, s) := by
  induction l with
  | nil => simp [List.find?] at h
  | cons p ps ih =>
    by_cases hp : p.1 = cid
    · simp [List.find?, hp]
    · have hb : (p.1 == cid) = false := by simpa using hp
      simp only [List.find?, hb] at h
      simp only [List.map, List.find?, hb, if_neg, Bool.false_eq_true,
        reduceIte]
      exact ih h

/-- Appending a fresh entry to an association list with no matching entry
is visible to a subsequent lookup. -/
theorem findAppendAux (l : List (Nat × ChanState)) (cid : Nat) (s : ChanState)
    (h : l.find? (fun p => p.1 == cid) = none) :
    (l ++ [(cid, s)]).find? (fun p => p.1 == cid) = some (cid, s) := by
  induction l with
  | nil => simp [List.find?]
  | cons p ps ih =>
    by_cases hp : p.1 = cid
    · simp [List.find?, hp] at h
    · have hb : (p.1 == cid) = false := by simpa using hp
      simp only [List.find?, hb] at h
      simp only [List.cons_append, List.find?, hb]
      exact ih h

/-- Looking up a channel state right after setting it returns the value
set. -/
theorem lookupState_setState (l : List (Nat × ChanState)) (cid : Nat)
    (s : ChanState) : lookupState (setState l cid s) cid = some s := by
  unfold lookupState setState
  by_cases h : (l.find? (fun p => p.1 == cid)).isSome = true
  · rw [if_pos h, findReplaceAux l cid s h]
    rfl
  · have hn : l.find? (fun p => p.1 == cid) = none := by
      cases hf : l.find? (fun p => p.1 == cid) with
      | none => rfl
      | some v => rw [hf] at h; simp at h
    rw [if_neg h, findAppendAux l cid s hn]
    rfl

/-- UPDATE ... WHERE ID = cid, seen through a SELECT of the same id, maps
the selected row through the update when the update preserves the id
column. -/
theorem findMapUpdate (l : List ChannelRow) (cid : Nat)
    (f : ChannelRow → ChannelRow) (hf : ∀ r, (f r).id = r.id) :
    (l.map (fun r => if r.id == cid then f r else r)).find?
        (fun r => r.id == cid) = (l.find? (fun r => r.id == cid)).map f := by
  induction l with
  | nil => rfl
  | cons r rs ih =>
    by_cases hr : r.id = cid
    · have hb : (r.id == cid) = true := by simpa using hr
      have hfb : ((f r).id == cid) = true := by simp [hf r, hr]
      simp [List.find?, hb, hfb]
    · have hb : (r.id == cid) = false := by simpa using hr
      simp only [List.map, List.find?, hb, Bool.false_eq_true, reduceIte]
      exact ih

/-- getChannelRow after updateChannelRow on the same id. -/
theorem getChannelRow_update (db : Db) (cid : Nat)
    (f : ChannelRow → ChannelRow) (hf : ∀ r, (f r).id = r.id) :
    getChannelRow (updateChannelRow db cid f) cid =
      (getChannelRow db cid).map f :=
  findMapUpdate db.channels cid f hf

/-- C8: on a source with max_skips + 10 = 60 consecutive unreadable
records (ids 1..60) followed by one readable record (id 61) and nothing
after it, fetch_message_batch with the default batch size 100 terminates
within the fuel bound in a single client call, returns exactly the one
readable record, and leaves the working offset at 61, past the entire
corrupt run; and whenever skips has reached max_skips at the bottom of an
iteration, the working offset is jumped forward by the fixed stride 100
with skips reset to 0. -/
theorem C8_skip_ahead_termination :
    fetch_message_batch corruptRunClient 0 100 10 =
      some ⟨⟨61, [⟨61, 61, true⟩], 1, 0, 0⟩, 1, []⟩ ∧
    (∀ s : FetchState, maxSkips ≤ s.skips →
      jumpIfMaxSkips s =
        { s with currentOffset := s.currentOffset + 100, skips := 0 }) := by
  refine ⟨by decide, ?_⟩
  intro s h
  unfold jumpIfMaxSkips
  rw [if_pos h]

/-- Witness for C8: the skip-jump rule applied at a concrete state with
skips = max_skips. -/
theorem C8_skip_ahead_termination_witness :
    jumpIfMaxSkips ⟨7, [], 0, 0, 50⟩ = ⟨7 + 100, [], 0, 0, 0⟩ :=
  C8_skip_ahead_termination.2 ⟨7, [], 0, 0, 50⟩ (by decide)

/-- C9: against a client that always signals a rate limit with wait 1,
fetch_message_batch sleeps once per signal, gives up after max_retries = 5
retries (5 calls, 5 sleeps) and returns the empty collection; against a
client that serves 100 records and then always signals a rate limit, it
returns the 100 records collected so far after 5 further sleeps.  Both
runs end with a some result under a fixed fuel bound, so neither loops
indefinitely. -/
theorem C9_rate_limit_budget :
    fetch_message_batch alwaysFloodClient 0 100 10 =
      some ⟨⟨0, [], 0, 5, 0⟩, 5, [1, 1, 1, 1, 1]⟩ ∧
    (fetch_message_batch floodAfterHundredClient 0 102 10).map
        (fun o => (o.state.valid.length, o.state.retries, o.sleeps)) =
      some (100, 5, [1, 1, 1, 1, 1]) :=
  ⟨by decide, by decide⟩

/-- C10: sanitize_text maps None to None and, for every input string and
every NFKC normaliser, returns either None or a non-empty string whose
code points are all printable ASCII, newline or carriage return; in
particular the output never contains a non-ASCII character and is never
empty.  The model is a total function, matching the source where every
exception is caught and turned into None. -/
theorem C10_sanitize_output (normalizeNFKC : PyStr → PyStr) (t : PyStr) :
    sanitize_text normalizeNFKC none = none ∧
    (sanitize_text normalizeNFKC (some t) = none ∨
      ∃ out, sanitize_text normalizeNFKC (some t) = some out ∧ out ≠ [] ∧
        ∀ c ∈ out, (0x20 ≤ c ∧ c ≤ 0x7E) ∨ c = 0x0A ∨ c = 0x0D) := by
  refine ⟨rfl, ?_⟩
  cases hE : ((normalizeNFKC t).filter regexKeep).filter asciiKeep with
  | nil =>
    left
    simp only [sanitize_text]
    rw [hE]
    rfl
  | cons x xs =>
    right
    refine ⟨x :: xs, ?_, by simp, ?_⟩
    · simp only [sanitize_text]
      rw [hE]
      rfl
    · intro c hc
      rw [← hE] at hc
      have h1 := List.mem_filter.mp hc
      have h2 := List.mem_filter.mp h1.1
      have ha : c < 0x80 := by
        have hb := h1.2
        simpa [asciiKeep] using hb
      have hr := h2.2
      simp only [regexKeep, Bool.or_eq_true, Bool.and_eq_true,
        decide_eq_true_iff, beq_iff_eq] at hr
      omega

/-- Witness for C10: the property instantiated at the identity normaliser
and the two-character input letter A followed by an emoji. -/
theorem C10_sanitize_output_witness :
    sanitize_text id (some [65, 128512]) = none ∨
      ∃ out, sanitize_text id (some [65, 128512]) = some out ∧ out ≠ [] ∧
        ∀ c ∈ out, (0x20 ≤ c ∧ c ≤ 0x7E) ∨ c = 0x0A ∨ c = 0x0D :=
  (C10_sanitize_output id [65, 128512]).2

/-- C1 counterexample: in envC1cex the batch file write fails
(fileWriteOk is false, so the metadata insert is never attempted), yet
after one scheduler cycle the in-memory cursor for channel 1 stands at
10, the id of the fetched record, while the batch-metadata table is still
empty: offset_id advanced although the batch was not durably committed,
refuting the claim that a persistence failure leaves offset_id
unchanged. -/
theorem C1_cursor_invariant_counterexample :
    schedulerRun envC1cex 0 1 dbOne [] 0 0 =
      SchedResult.running
        ⟨[⟨1, true, false, 1, 0, some 10, some 100, some 10, some 100, none⟩],
          []⟩
        [(1, ⟨10, 0, 1, 1⟩)] 1 2 := by decide

/-- C1 amended: after every non-empty fetch the per-channel body of main
moves the in-memory offset_id to the id of the last fetched record and
resets fetch_attempts, for every outcome of the file write, the metadata
insert and the status update: the cursor advance is unconditional, not
gated on durable commit. -/
theorem C1_cursor_advances_unconditionally (env : SchedEnv)
    (maxBatches cycle : Nat) (db : Db) (states : List (Nat × ChanState))
    (cid : Nat) (lp : Option Nat) (st : ChanState) (m : Msg) (rest : List Msg)
    (hst : lookupState states cid = some st)
    (hcap : (0 < maxBatches && maxBatches ≤ st.batchCount) = false)
    (hfetch : env.fetchResult cycle cid = m :: rest) :
    lookupState (processChannel env maxBatches cycle db states (cid, lp)).states
        cid =
      some ⟨((m :: rest).getLast (List.cons_ne_nil m rest)).id, 0,
        st.batchCount + 1, st.totalFetched + (m :: rest).length⟩ := by
  unfold processChannel
  simp only [hst, Option.isSome_some, if_true, Option.getD_some, hcap,
    Bool.false_eq_true, reduceIte, hfetch]
  exact lookupState_setState states cid _

/-- Witness for C1 amended: the unconditional cursor advance at the
concrete failing-file-write scenario. -/
theorem C1_cursor_advances_unconditionally_witness :
    lookupState
        (processChannel envC1cex 0 0 dbOne [(1, ⟨0, 0, 0, 0⟩)] (1, none)).states
        1 = some ⟨10, 0, 1, 1⟩ := by
  have h := C1_cursor_advances_unconditionally envC1cex 0 0 dbOne
    [(1, ⟨0, 0, 0, 0⟩)] 1 none ⟨0, 0, 0, 0⟩ ⟨10, 100, true⟩ []
    (by decide) (by decide) rfl
  simpa using h

/-- C2 counterexample: in envC2cex the file write and the metadata insert
succeed but the channel status update fails; after one scheduler cycle
the batch-metadata row is committed while the channel roster row is
completely untouched — the partial outcome the claim declares impossible.
In the scheduler (telegram_fetch.py lines 533-534) the two writes run as
two separate connections with separate commits, not one transaction. -/
theorem C2_commit_atomicity_counterexample :
    schedulerRun envC2cex 0 1 dbOne [] 0 0 =
      SchedResult.running
        ⟨[⟨1, true, false, 1, 0, none, none, none, none, none⟩],
          [⟨1, 0, 0, 10, 100, 10, 100, 1⟩]⟩
        [(1, ⟨10, 0, 1, 1⟩)] 1 2 := by decide

/-- C2 amended: MessageStorageHandler.store_messages really is
all-or-nothing on the relational store: for a non-empty batch it either
leaves the store unchanged (file-write failure or rolled-back
transaction) or commits the metadata row and the channel latest update
together inside the one transaction.  The scheduler of telegram_fetch.py,
by contrast, runs the two writes in separate transactions (see the
counterexample). -/
theorem C2_store_messages_atomic (env : StoreEnv) (db : Db) (cid : Nat)
    (m : Msg) (rest : List Msg) (path now : Nat) (r : ChannelRow)
    (hr : getChannelRow db cid = some r) :
    (store_messages env db cid (m :: rest) path now).1 = db ∨
    ((store_messages env db cid (m :: rest) path now).1.batches =
        db.batches ++ [⟨cid, now, path, m.id, m.date,
          ((m :: rest).getLast (List.cons_ne_nil m rest)).id,
          ((m :: rest).getLast (List.cons_ne_nil m rest)).date,
          (m :: rest).length⟩] ∧
      ∃ r2, getChannelRow (store_messages env db cid (m :: rest) path now).1
          cid = some r2 ∧
        r2.latestId = some ((m :: rest).getLast (List.cons_ne_nil m rest)).id ∧
        r2.latestBatchRun = some now) := by
  unfold store_messages
  cases hm : env.msgFileOk with
  | false => left; simp [hm]
  | true =>
    cases hs : env.statsFileOk with
    | false => left; simp [hm, hs]
    | true =>
      cases ht : env.txOk with
      | false => left; simp [hm, hs, ht]
      | true =>
        right
        simp only [hm, hs, ht, Bool.not_true, Bool.false_eq_true, reduceIte,
          Bool.true_eq_false]
        unfold store_messages_tx
        have hins : getChannelRow (insertBatchRow db
            ⟨cid, now, path, m.id, m.date,
              ((m :: rest).getLast (List.cons_ne_nil m rest)).id,
              ((m :: rest).getLast (List.cons_ne_nil m rest)).date,
              (m :: rest).length⟩) cid = some r := hr
        by_cases hfr :
            (match getChannelRow (insertBatchRow db
              ⟨cid, now, path, m.id, m.date,
                ((m :: rest).getLast (List.cons_ne_nil m rest)).id,
                ((m :: rest).getLast (List.cons_ne_nil m rest)).date,
                (m :: rest).length⟩) cid with
            | none => true
            | some r => r.earliestId == none) = true
        · simp only [hfr, if_true]
          refine ⟨rfl, { r with
              earliestId := some m.id, earliestDate := some m.date,
              latestId :=
                some ((m :: rest).getLast (List.cons_ne_nil m rest)).id,
              latestDate :=
                some ((m :: rest).getLast (List.cons_ne_nil m rest)).date,
              latestBatchRun := some now, fetchStatus := 1 }, ?_, rfl, rfl⟩
          rw [getChannelRow_update, hins]
          · rfl
          · exact fun _ => rfl
        · simp only [hfr, Bool.false_eq_true, reduceIte]
          refine ⟨rfl, { r with
              latestId :=
                some ((m :: rest).getLast (List.cons_ne_nil m rest)).id,
              latestDate :=
                some ((m :: rest).getLast (List.cons_ne_nil m rest)).date,
              latestBatchRun := some now }, ?_, rfl, rfl⟩
          rw [getChannelRow_update, hins]
          · rfl
          · exact fun _ => rfl

/-- Witness for C2 amended: the all-or-nothing disjunction at a fully
successful concrete store_messages call. -/
theorem C2_store_messages_atomic_witness :
    (store_messages ⟨true, true, true⟩ dbOne 1 [⟨10, 100, true⟩] 0 0).1 =
        dbOne ∨
    ((store_messages ⟨true, true, true⟩ dbOne 1 [⟨10, 100, true⟩] 0 0).1.batches
        = dbOne.batches ++ [⟨1, 0, 0, 10, 100,
          (([⟨10, 100, true⟩] : List Msg).getLast (List.cons_ne_nil _ _)).id,
          (([⟨10, 100, true⟩] : List Msg).getLast (List.cons_ne_nil _ _)).date,
          ([⟨10, 100, true⟩] : List Msg).length⟩] ∧
      ∃ r2, getChannelRow
          (store_messages ⟨true, true, true⟩ dbOne 1 [⟨10, 100, true⟩] 0 0).1 1
          = some r2 ∧
        r2.latestId = some
          (([⟨10, 100, true⟩] : List Msg).getLast (List.cons_ne_nil _ _)).id ∧
        r2.latestBatchRun = some 0) :=
  C2_store_messages_atomic ⟨true, true, true⟩ dbOne 1 ⟨10, 100, true⟩ [] 0 0
    chanRow1 (by decide)

/-- C3 counterexample: channel 1 already has an earliest committed id
(some 5) and a prior batch row, so the next commit is a subsequent batch;
after one fully successful scheduler cycle the earliest id column holds
some 11 — the roster update of the scheduler (update_channel_status)
rewrote the earliest fields on a subsequent batch instead of leaving them
unchanged (and it wrote the NEWEST id 11 into earliest and the oldest id
10 into latest). -/
theorem C3_earliest_overwritten_counterexample :
    chanRowSeen.earliestId = some 5 ∧
    schedulerRun envC3cex 0 1 dbSeen [] 0 0 =
      SchedResult.running
        ⟨[⟨1, true, false, 1, 0, some 11, some 101, some 10, some 100, some 7⟩],
          [⟨1, 7, 7, 5, 50, 9, 90, 5⟩, ⟨1, 0, 0, 10, 100, 11, 101, 2⟩]⟩
        [(1, ⟨11, 0, 1, 2⟩)] 1 2 :=
  ⟨rfl, by decide⟩

/-- C3 amended: in the transaction of MessageStorageHandler
store_messages, a first-ever batch (earliest id absent) sets both the
earliest and the latest fields and marks FetchStatus in_progress, and a
subsequent batch updates only the latest fields and the batch-run time,
leaving earliest and FetchStatus unchanged; the scheduler path
(update_channel_status of telegram_fetch.py) instead writes both earliest
and latest on every non-empty batch, taking earliest from the last and
latest from the first message. -/
theorem C3_earliest_latest_update_policy (db : Db) (cid : Nat) (m : Msg)
    (rest : List Msg) (path now : Nat) (r : ChannelRow)
    (hr : getChannelRow db cid = some r) :
    (r.earliestId = none →
      getChannelRow (store_messages_tx db cid m rest path now) cid =
        some { r with
          earliestId := some m.id, earliestDate := some m.date,
          latestId := some ((m :: rest).getLast (List.cons_ne_nil m rest)).id,
          latestDate :=
            some ((m :: rest).getLast (List.cons_ne_nil m rest)).date,
          latestBatchRun := some now, fetchStatus := 1 }) ∧
    (∀ e, r.earliestId = some e →
      getChannelRow (store_messages_tx db cid m rest path now) cid =
        some { r with
          latestId := some ((m :: rest).getLast (List.cons_ne_nil m rest)).id,
          latestDate :=
            some ((m :: rest).getLast (List.cons_ne_nil m rest)).date,
          latestBatchRun := some now }) ∧
    (∀ db2 a r2, getChannelRow db2 cid = some r2 →
      getChannelRow (update_channel_status db2 cid (m :: rest) a true).1 cid =
        some { r2 with
          earliestId := some ((m :: rest).getLast (List.cons_ne_nil m rest)).id,
          earliestDate :=
            some ((m :: rest).getLast (List.cons_ne_nil m rest)).date,
          latestId := some m.id, latestDate := some m.date,
          fetchStatus := 1, fetchAttempts := 0 }) := by
  have hins : getChannelRow (insertBatchRow db ⟨cid, now, path, m.id, m.date,
      ((m :: rest).getLast (List.cons_ne_nil m rest)).id,
      ((m :: rest).getLast (List.cons_ne_nil m rest)).date,
      (m :: rest).length⟩) cid = some r := hr
  refine ⟨?_, ?_, ?_⟩
  · intro h
    have hmatch : (match getChannelRow (insertBatchRow db
        ⟨cid, now, path, m.id, m.date,
          ((m :: rest).getLast (List.cons_ne_nil m rest)).id,
          ((m :: rest).getLast (List.cons_ne_nil m rest)).date,
          (m :: rest).length⟩) cid with
        | none => true
        | some r => r.earliestId == none) = true := by
      rw [hins]
      simp [h]
    unfold store_messages_tx
    simp only [hmatch, if_true]
    rw [getChannelRow_update, hins]
    · rfl
    · exact fun _ => rfl
  · intro e h
    have hmatch : (match getChannelRow (insertBatchRow db
        ⟨cid, now, path, m.id, m.date,
          ((m :: rest).getLast (List.cons_ne_nil m rest)).id,
          ((m :: rest).getLast (List.cons_ne_nil m rest)).date,
          (m :: rest).length⟩) cid with
        | none => true
        | some r => r.earliestId == none) = false := by
      rw [hins]
      simp [h]
    unfold store_messages_tx
    simp only [hmatch, Bool.false_eq_true, reduceIte]
    rw [getChannelRow_update, hins]
    · rfl
    · exact fun _ => rfl
  · intro db2 a r2 hr2
    unfold update_channel_status
    simp only [Bool.not_true, Bool.false_eq_true, reduceIte]
    rw [getChannelRow_update, hr2]
    · rfl
    · exact fun _ => rfl

/-- Witness for C3 amended: the subsequent-batch branch of store_messages
applied at the concrete store dbSeen, whose channel already has earliest
id some 5; only the latest fields and the batch-run time change. -/
theorem C3_earliest_latest_update_policy_witness :
    getChannelRow (store_messages_tx dbSeen 1 ⟨10, 100, true⟩ [] 0 0) 1 =
      some ⟨1, true, false, 1, 0, some 5, some 50, some 10, some 100, some 0⟩ := by
  have h := (C3_earliest_latest_update_policy dbSeen 1 ⟨10, 100, true⟩ [] 0 0
    chanRowSeen (by decide)).2.1 5 rfl
  exact h

/-- C4 counterexample: a run in which the only channel commits one batch
and then hits the max_batches cap stops with exit code 0 even though the
lock file was never removed (lockExists is constantly true) and the
channel is not complete (FetchStatus is 1, in_progress) — so exit code 0
happens outside the two clean-stop cases named by the claim. -/
theorem C4_exit_zero_counterexample :
    mainRun envMainCap = ⟨MainOutcome.exitCode 0, 1, false⟩ ∧
    schedulerRun envSchedCap 1 2 dbOne [] 0 0 =
      SchedResult.stopped StopReason.allCapped
        ⟨[⟨1, true, false, 1, 0, some 10, some 100, some 10, some 100, none⟩],
          [⟨1, 0, 0, 10, 100, 10, 100, 1⟩]⟩
        [(1, ⟨10, 0, 1, 1⟩)] 3 ∧
    envSchedCap.lockExists = fun _ => true :=
  ⟨by decide, by decide, rfl⟩

/-- C4 amended: the exit code is 1 when initialisation fails; it is 1
when the lock is already held (acquire raises LockError, and the release
step in the finally clause raises on the closed descriptor before
sys.exit(0) is reached); likewise 1 when locking an already opened
descriptor fails with an OS error; it is 0 whenever the service loop
stops for any reason (lock removed or active_channels empty); but it is
also 0 when the open call of acquire itself fails with an OS error,
because lock_fd is then still None, release is a no-op, and the finally
clause reaches sys.exit(0) — so exit code 0 holds exactly when
initialisation succeeded and either the lock was acquired and the loop
stopped, or the lock file could not even be opened. -/
theorem C4_exit_codes (env : MainEnv) :
    (env.initOk = false → (mainRun env).outcome = MainOutcome.exitCode 1) ∧
    (env.initOk = true → env.acquireOutcome = AcquireOutcome.contention →
      (mainRun env).outcome = MainOutcome.exitCode 1) ∧
    (env.initOk = true → env.acquireOutcome = AcquireOutcome.lockOsFailure →
      (mainRun env).outcome = MainOutcome.exitCode 1) ∧
    (env.initOk = true → env.acquireOutcome = AcquireOutcome.openFailure →
      (mainRun env).outcome = MainOutcome.exitCode 0) ∧
    (∀ reason db states lc, env.initOk = true →
      env.acquireOutcome = AcquireOutcome.success →
      schedulerRun env.sched env.maxBatches env.fuel env.initialDb [] 0 0 =
        SchedResult.stopped reason db states lc →
      (mainRun env).outcome = MainOutcome.exitCode 0) ∧
    ((mainRun env).outcome = MainOutcome.exitCode 0 →
      env.initOk = true ∧ (env.acquireOutcome = AcquireOutcome.success ∨
        env.acquireOutcome = AcquireOutcome.openFailure)) := by
  refine ⟨?_, ?_, ?_, ?_, ?_, ?_⟩
  · intro h
    simp [mainRun, h]
  · intro h1 h2
    simp [mainRun, h1, h2, lockRelease]
  · intro h1 h2
    simp [mainRun, h1, h2, lockRelease]
  · intro h1 h2
    simp [mainRun, h1, h2, lockRelease]
  · intro reason db states lc h1 h2 h3
    simp [mainRun, h1, h2, h3, lockRelease]
  · intro h
    cases hi : env.initOk with
    | false => simp [mainRun, hi] at h
    | true =>
      cases ha : env.acquireOutcome with
      | contention => simp [mainRun, hi, ha, lockRelease] at h
      | lockOsFailure => simp [mainRun, hi, ha, lockRelease] at h
      | openFailure => exact ⟨rfl, Or.inr rfl⟩
      | success => exact ⟨rfl, Or.inl rfl⟩

/-- Witness for C4 amended: the exit-code clauses at concrete
environments (failed initialisation, lock contention, an OS failure
while locking the opened descriptor, an OS failure of the open call
itself, and the capped run that stops the loop). -/
theorem C4_exit_codes_witness :
    (mainRun ⟨false, AcquireOutcome.success, envSchedCap, 1, dbOne, 2⟩).outcome
        = MainOutcome.exitCode 1 ∧
    (mainRun ⟨true, AcquireOutcome.contention, envSchedCap, 1, dbOne, 2⟩).outcome
        = MainOutcome.exitCode 1 ∧
    (mainRun ⟨true, AcquireOutcome.lockOsFailure, envSchedCap, 1, dbOne, 2⟩).outcome
        = MainOutcome.exitCode 1 ∧
    (mainRun ⟨true, AcquireOutcome.openFailure, envSchedCap, 1, dbOne, 2⟩).outcome
        = MainOutcome.exitCode 0 ∧
    (mainRun envMainCap).outcome = MainOutcome.exitCode 0 := by
  refine ⟨(C4_exit_codes _).1 rfl, (C4_exit_codes _).2.1 rfl rfl,
    (C4_exit_codes _).2.2.1 rfl rfl, (C4_exit_codes _).2.2.2.1 rfl rfl, ?_⟩
  exact (C4_exit_codes envMainCap).2.2.2.2.1 StopReason.allCapped
    ⟨[⟨1, true, false, 1, 0, some 10, some 100, some 10, some 100, none⟩],
      [⟨1, 0, 0, 10, 100, 10, 100, 1⟩]⟩
    [(1, ⟨10, 0, 1, 1⟩)] 3 rfl rfl (by decide)

/-- When every roster entry of a cycle is at the max_batches cap, the for
loop of main skips them all: no store change, no state change, no lock
check, nothing fetched, and active_channels stays empty. -/
theorem runChannels_all_capped (env : SchedEnv) (maxBatches cycle : Nat)
    (db : Db) (states : List (Nat × ChanState)) (lc : Nat)
    (entries : List (Nat × Option Nat)) (anyM : Bool)
    (hcap : ∀ e ∈ entries, ∃ st, lookupState states e.1 = some st ∧
      (0 < maxBatches && maxBatches ≤ st.batchCount) = true) :
    runChannels env maxBatches cycle db states lc entries anyM false =
      ⟨db, states, lc, anyM, false, false⟩ := by
  induction entries with
  | nil => rfl
  | cons e es ih =>
    obtain ⟨st, hst, hc⟩ := hcap e (List.mem_cons_self e es)
    have hproc : processChannel env maxBatches cycle db states e =
        ⟨db, states, false, false⟩ := by
      unfold processChannel
      simp only [hst, Option.isSome_some, if_true, Option.getD_some, hc,
        reduceIte]
    unfold runChannels
    simp only [hproc, Bool.or_false]
    exact ih (fun e2 he2 => hcap e2 (List.mem_cons_of_mem e he2))

/-- C5 counterexample: the only active channel is already marked complete
(FetchStatus 2) and max_batches is 0; by the claim the scheduler should
stop at the end of that cycle, but after three cycles of fuel the result
is still running (cycle counter 3): complete channels are re-processed
every cycle because fetch_active_channels never filters on FetchStatus
and active_channels only excludes capped channels.  The empty fetches
even flip FetchStatus back to 1 while the attempt counter is below 5. -/
theorem C5_complete_does_not_stop_counterexample :
    chanRowComplete.fetchStatus = 2 ∧
    fetch_active_channels dbComplete = [chanRowComplete] ∧
    schedulerRun envEmptyFetch 0 3 dbComplete [] 0 0 =
      SchedResult.running
        ⟨[⟨1, true, false, 1, 3, some 5, some 50, some 9, some 90, some 7⟩],
          []⟩
        [(1, ⟨0, 3, 0, 0⟩)] 3 6 :=
  ⟨rfl, by decide, by decide⟩

/-- C5 amended: the scheduler stops (break on empty active_channels)
exactly in a cycle whose roster channels are all at the max_batches cap;
a channel marked complete but not capped keeps the loop running.  Here:
if the lock is present at the top of the cycle, the roster query succeeds
and is non-empty, and every roster channel has an in-memory state at the
cap, then the cycle ends the scheduler with reason allCapped, leaving
store and states untouched. -/
theorem C5_stops_when_all_capped (env : SchedEnv) (maxBatches fuel : Nat)
    (db : Db) (states : List (Nat × ChanState)) (cycle lc : Nat)
    (hlock : env.lockExists lc = true)
    (hroster : env.rosterOk cycle = true)
    (hne : (fetch_active_channels db).isEmpty = false)
    (hcap : ∀ r ∈ fetch_active_channels db, ∃ st,
      lookupState states r.id = some st ∧
      (0 < maxBatches && maxBatches ≤ st.batchCount) = true) :
    schedulerRun env maxBatches (fuel + 1) db states cycle lc =
      SchedResult.stopped StopReason.allCapped db states (lc + 1) := by
  have hrc := runChannels_all_capped env maxBatches cycle db states (lc + 1)
    ((fetch_active_channels db).map (fun r => (r.id, lastProcessedId db r.id)))
    false ?_
  · unfold schedulerRun
    simp only [hlock, Bool.not_true, Bool.false_eq_true, reduceIte, hroster,
      if_true, hne, hrc]
    rfl
  · intro e he
    obtain ⟨r, hr, he2⟩ := List.mem_map.mp he
    obtain ⟨st, hst, hc⟩ := hcap r hr
    exact ⟨st, by rw [← he2]; exact hst, hc⟩

/-- Witness for C5 amended: one capped channel stops the loop at once. -/
theorem C5_stops_when_all_capped_witness :
    schedulerRun envEmptyFetch 1 1 dbOne [(1, ⟨0, 0, 1, 0⟩)] 0 0 =
      SchedResult.stopped StopReason.allCapped dbOne [(1, ⟨0, 0, 1, 0⟩)] 1 := by
  refine C5_stops_when_all_capped envEmptyFetch 1 0 dbOne [(1, ⟨0, 0, 1, 0⟩)]
    0 0 rfl rfl (by decide) ?_
  intro r hr
  have hr1 : r = chanRow1 := by simpa [fetch_active_channels, dbOne, chanRow1,
    List.filter] using hr
  subst hr1
  exact ⟨⟨0, 0, 1, 0⟩, by decide, by decide⟩

/-- C6: deleting the lock file out-of-band stops the scheduler right
after the channel being processed.  Concretely, with three channels and a
lock that disappears at the third existence check (top of cycle, after
channel 1, after channel 2), the loop stops with reason
lockRemovedMidCycle having processed channels 1 and 2 only (channel 3 has
no state entry and its roster row is untouched), and the whole run exits
with code 0, exactly one release invocation and no remaining lock file.
Generally, whenever the loop stops, main invokes release exactly once and
no lock file of this process remains on disk. -/
theorem C6_lock_liveness :
    schedulerRun envLockGone 0 1 dbThree [] 0 0 =
      SchedResult.stopped StopReason.lockRemovedMidCycle
        ⟨[⟨1, true, false, 1, 1, none, none, none, none, none⟩,
          ⟨2, true, false, 1, 1, none, none, none, none, none⟩,
          ⟨3, true, false, 1, 0, none, none, none, none, none⟩], []⟩
        [(1, ⟨0, 1, 0, 0⟩), (2, ⟨0, 1, 0, 0⟩)] 3 ∧
    lookupState [(1, ⟨0, 1, 0, 0⟩), (2, ⟨0, 1, 0, 0⟩)] 3 = none ∧
    mainRun envMainLockGone = ⟨MainOutcome.exitCode 0, 1, false⟩ ∧
    (∀ env : MainEnv, ∀ reason db states lc,
      env.initOk = true → env.acquireOutcome = AcquireOutcome.success →
      schedulerRun env.sched env.maxBatches env.fuel env.initialDb [] 0 0 =
        SchedResult.stopped reason db states lc →
      (mainRun env).releaseCalls = 1 ∧ (mainRun env).lockFileAfter = false) := by
  refine ⟨by decide, by decide, by decide, ?_⟩
  intro env reason db states lc h1 h2 h3
  constructor
  · simp [mainRun, h1, h2, h3, lockRelease]
  · simp [mainRun, h1, h2, h3, lockRelease]

/-- Witness for C6: the release-once clause applied at the concrete
lock-removal run. -/
theorem C6_lock_liveness_witness :
    (mainRun envMainLockGone).releaseCalls = 1 ∧
    (mainRun envMainLockGone).lockFileAfter = false :=
  C6_lock_liveness.2.2.2 envMainLockGone StopReason.lockRemovedMidCycle
    ⟨[⟨1, true, false, 1, 1, none, none, none, none, none⟩,
      ⟨2, true, false, 1, 1, none, none, none, none, none⟩,
      ⟨3, true, false, 1, 0, none, none, none, none, none⟩], []⟩
    [(1, ⟨0, 1, 0, 0⟩), (2, ⟨0, 1, 0, 0⟩)] 3 rfl rfl (by decide)

/-- C7: the roster status update increments fetch_attempts on every empty
fetch and marks the channel complete (FetchStatus 2) exactly when the
counter reaches max_attempts = 5, and any non-empty fetch writes
FetchStatus 1 with fetch_attempts 0.  Concretely: after 4 empty cycles
the channel is in_progress with 4 attempts, after the 5th it is complete
with 5 attempts, and a non-empty fetch at cycle 5 resets the row to
in_progress with 0 attempts. -/
theorem C7_completion_transition :
    (∀ db cid a r, getChannelRow db cid = some r →
      getChannelRow (update_channel_status db cid [] a true).1 cid =
        some { r with fetchStatus := if maxAttempts ≤ a + 1 then 2 else 1,
                      fetchAttempts := a + 1 }) ∧
    (∀ db cid a m rest r, getChannelRow db cid = some r →
      getChannelRow (update_channel_status db cid (m :: rest) a true).1 cid =
        some { r with
          earliestId := some ((m :: rest).getLast (List.cons_ne_nil m rest)).id,
          earliestDate :=
            some ((m :: rest).getLast (List.cons_ne_nil m rest)).date,
          latestId := some m.id, latestDate := some m.date,
          fetchStatus := 1, fetchAttempts := 0 }) ∧
    schedulerRun envEmptyFetch 0 4 dbOne [] 0 0 =
      SchedResult.running
        ⟨[⟨1, true, false, 1, 4, none, none, none, none, none⟩], []⟩
        [(1, ⟨0, 4, 0, 0⟩)] 4 8 ∧
    schedulerRun envEmptyFetch 0 5 dbOne [] 0 0 =
      SchedResult.running
        ⟨[⟨1, true, false, 2, 5, none, none, none, none, none⟩], []⟩
        [(1, ⟨0, 5, 0, 0⟩)] 5 10 ∧
    schedulerRun envFiveThenMsg 0 6 dbOne [] 0 0 =
      SchedResult.running
        ⟨[⟨1, true, false, 1, 0, some 10, some 100, some 10, some 100, none⟩],
          [⟨1, 5, 5, 10, 100, 10, 100, 1⟩]⟩
        [(1, ⟨10, 0, 1, 1⟩)] 6 12 := by
  refine ⟨?_, ?_, by decide, by decide, by decide⟩
  · intro db cid a r hr
    unfold update_channel_status
    by_cases h5 : maxAttempts ≤ a + 1
    · rw [if_pos h5]
      simp only [Bool.not_true, Bool.false_eq_true, reduceIte, if_pos h5]
      rw [getChannelRow_update, hr]
      · rfl
      · exact fun _ => rfl
    · rw [if_neg h5]
      simp only [Bool.not_true, Bool.false_eq_true, reduceIte, if_neg h5]
      rw [getChannelRow_update, hr]
      · rfl
      · exact fun _ => rfl
  · intro db cid a m rest r hr
    unfold update_channel_status
    simp only [Bool.not_true, Bool.false_eq_true, reduceIte]
    rw [getChannelRow_update, hr]
    · rfl
    · exact fun _ => rfl

/-- Witness for C7: the fifth consecutive empty fetch marks channel 1
complete with the attempt counter recorded as 5. -/
theorem C7_completion_transition_witness :
    getChannelRow (update_channel_status dbOne 1 [] 4 true).1 1 =
      some { chanRow1 with
        fetchStatus := if maxAttempts ≤ 4 + 1 then 2 else 1,
        fetchAttempts := 4 + 1 } :=
  C7_completion_transition.1 dbOne 1 4 chanRow1 (by decide)

end TradingV1
